import Mathlib

/-!
# umurmur: the mbedTLS integration layer (`src/ssli_mbedtls.c`)

A shallow embedding of the TLS glue of umurmur and the properties of its
handshake driver, record I/O, entropy source, credential store, connection
factory and teardown.

The TLS engine (mbedTLS), the configuration lookup, the logger and the C
allocator are collaborators outside the file: their results enter the
embedding as parameters (`EngineCodes`, `Engine`, `Env`, `FactoryEngine`), and the
C functions of the file are transcribed over them.
-/

namespace Umurmur

/-! ## Constants of the headers -/

/-- Numeric codes taken from headers that are not part of the translated file:
the mbedTLS error codes tested by the wrappers and the two would-block
sentinels of `ssl.h`. -/
structure EngineCodes where
  MBEDTLS_ERR_SSL_WANT_READ : Int
  MBEDTLS_ERR_SSL_WANT_WRITE : Int
  MBEDTLS_ERR_X509_CERT_VERIFY_FAILED : Int
  MBEDTLS_ERR_PK_TYPE_MISMATCH : Int
  SSLI_ERROR_WANT_READ : Int
  SSLI_ERROR_WANT_WRITE : Int
deriving Repr, DecidableEq

/-- A concrete set of codes (the values of mbedTLS 2.x: -0x6900, -0x6880,
-0x2700, -0x3F00, and two sentinels below every engine code). -/
def mbedtlsCodes : EngineCodes where
  MBEDTLS_ERR_SSL_WANT_READ := -26880
  MBEDTLS_ERR_SSL_WANT_WRITE := -26752
  MBEDTLS_ERR_X509_CERT_VERIFY_FAILED := -9984
  MBEDTLS_ERR_PK_TYPE_MISMATCH := -16128
  SSLI_ERROR_WANT_READ := -62208
  SSLI_ERROR_WANT_WRITE := -62224

/-! ## The TLS engine as seen by the handshake driver and record I/O -/

/-- The engine calls made on a connection context of type `σ`. Each call
returns the engine's `int` result and the context it leaves behind;
`mbedtls_ssl_read` also returns the bytes it stored in the caller's buffer. -/
structure Engine (σ : Type) where
  mbedtls_ssl_handshake : σ → Int × σ
  mbedtls_ssl_read : σ → Nat → Int × List Nat × σ
  mbedtls_ssl_write : σ → List Nat → Int × σ

/-- Embeds `int SSLi_nonblockaccept(SSL_handle_t *ssl, bool_t *SSLready)`: returns the
status, the context after the engine call and the value of `*SSLready`. -/
def SSLi_nonblockaccept {σ : Type} (c : EngineCodes) (e : Engine σ) (ssl : σ)
    (SSLready : Bool) : Int × σ × Bool :=
  let rc := (e.mbedtls_ssl_handshake ssl).1
  let ssl1 := (e.mbedtls_ssl_handshake ssl).2
  if rc ≠ 0 then
    if rc = c.MBEDTLS_ERR_SSL_WANT_READ ∨ rc = c.MBEDTLS_ERR_SSL_WANT_WRITE then
      (0, ssl1, SSLready)
    else if rc = c.MBEDTLS_ERR_X509_CERT_VERIFY_FAILED then
      (0, ssl1, SSLready)
    else
      (-1, ssl1, SSLready)
  else
    (0, ssl1, true)

/-- Embeds `int SSLi_read(SSL_handle_t *ssl, uint8_t *buf, int len)`: the returned
status, the bytes stored in `buf` and the context afterwards. -/
def SSLi_read {σ : Type} (c : EngineCodes) (e : Engine σ) (ssl : σ) (len : Nat) :
    Int × List Nat × σ :=
  let rc := (e.mbedtls_ssl_read ssl len).1
  if rc = c.MBEDTLS_ERR_SSL_WANT_READ then
    (c.SSLI_ERROR_WANT_READ, (e.mbedtls_ssl_read ssl len).2)
  else
    (rc, (e.mbedtls_ssl_read ssl len).2)

/-- Embeds `int SSLi_write(SSL_handle_t *ssl, uint8_t *buf, int len)`: the returned
status and the context afterwards. -/
def SSLi_write {σ : Type} (c : EngineCodes) (e : Engine σ) (ssl : σ) (buf : List Nat) :
    Int × σ :=
  let rc := (e.mbedtls_ssl_write ssl buf).1
  if rc = c.MBEDTLS_ERR_SSL_WANT_WRITE then
    (c.SSLI_ERROR_WANT_WRITE, (e.mbedtls_ssl_write ssl buf).2)
  else
    (rc, (e.mbedtls_ssl_write ssl buf).2)

/-- What a caller holds for one connection: the context and its ready flag. -/
structure Conn (σ : Type) where
  ssl : σ
  SSLready : Bool

/-- One call of `SSLi_nonblockaccept` on the caller's connection: the returned
status and the connection afterwards. -/
def acceptCall {σ : Type} (c : EngineCodes) (e : Engine σ) (conn : Conn σ) :
    Int × Conn σ :=
  let r := SSLi_nonblockaccept c e conn.ssl conn.SSLready
  (r.1, { ssl := r.2.1, SSLready := r.2.2 })

/-- The connection after `n` successive calls of `SSLi_nonblockaccept`. -/
def afterCalls {σ : Type} (c : EngineCodes) (e : Engine σ) : Nat → Conn σ → Conn σ
  | 0, conn => conn
  | n + 1, conn => afterCalls c e n (acceptCall c e conn).2

/-- The engine context after `n` handshake calls. -/
def engineAfter {σ : Type} (e : Engine σ) : Nat → σ → σ
  | 0, s => s
  | n + 1, s => engineAfter e n (e.mbedtls_ssl_handshake s).2

/-- The result the engine reports on handshake call number `k` (from 0). -/
def handshakeResult {σ : Type} (e : Engine σ) (s : σ) (k : Nat) : Int :=
  (e.mbedtls_ssl_handshake (engineAfter e k s)).1

/-- An engine that replays a fixed script of results, one per call, and
reports 0 once the script is used up. Used for concrete runs. -/
def scriptedEngine : Engine (List Int) where
  mbedtls_ssl_handshake := fun s => (s.headD 0, s.tail)
  mbedtls_ssl_read := fun s _ => (s.headD 0, [], s.tail)
  mbedtls_ssl_write := fun s _ => (s.headD 0, s.tail)

/-! ## Entropy source -/

/-- One result of `read(urandom_fd, dest, len)`: an error (a negative return,
nothing stored) or the bytes the device has ready, of which the call stores at
most `len`, starting at the address passed to it. -/
inductive ReadResult where
  | error : ReadResult
  | bytes : List Nat → ReadResult
deriving Repr, DecidableEq

/-- The effect of storing `data` at the start of the region `dest`. A cell is
`none` as long as nothing has been stored in it. -/
def storeAt (dest : List (Option Nat)) (data : List Nat) : List (Option Nat) :=
  data.map some ++ dest.drop data.length

/-- Embeds `int urandom_bytes(void *ctx, unsigned char *dest, size_t len)` run against
the successive results of the device read. `dest` is the region starting at the
pointer `dest`; the loop passes the same pointer to every `read`. The result is
`none` when the loop is still running after the last scripted result. -/
def urandom_bytes : List ReadResult → List (Option Nat) → Nat → Option (Int × List (Option Nat))
  | _, dest, 0 => some (0, dest)
  | [], _, _ + 1 => none
  | ReadResult.error :: rest, dest, len + 1 => urandom_bytes rest dest (len + 1)
  | ReadResult.bytes bs :: rest, dest, len + 1 =>
    let data := bs.take (len + 1)
    let cur := data.length
    urandom_bytes rest (storeAt dest data) (len + 1 - cur)

/-! ## Peer identity extractor -/

/-- The part of `mbedtls_x509_crt` the file reads: the raw encoded bytes
(`raw.p`, `raw.len`) of the certificate; `next` stands for the raw bytes of the
certificates that follow it in the chain. -/
structure mbedtls_x509_crt where
  raw : List Nat
  next : List (List Nat)
deriving Repr, DecidableEq

/-- Embeds `bool_t SSLi_getSHA1Hash(SSL_handle_t *ssl, uint8_t *hash)`: the returned
flag and the contents of `hash` afterwards. The engine's
`mbedtls_ssl_get_peer_cert` and `mbedtls_sha1` are parameters; the digest is
stored at the start of `hash`. -/
def SSLi_getSHA1Hash {σ : Type} (mbedtls_ssl_get_peer_cert : σ → Option mbedtls_x509_crt)
    (mbedtls_sha1 : List Nat → List Nat) (ssl : σ) (hash : List Nat) : Bool × List Nat :=
  match mbedtls_ssl_get_peer_cert ssl with
  | none => (false, hash)
  | some cert => (true, mbedtls_sha1 cert.raw ++ hash.drop (mbedtls_sha1 cert.raw).length)

/-- A stand-in digest with 20-byte output, for concrete runs only. -/
def sampleDigest (bs : List Nat) : List Nat :=
  List.replicate 19 0 ++ [bs.sum % 256]

/-! ## Credential store -/

/-- Where a decoded certificate chain or key came from. -/
inductive Origin where
  | file : String → Origin
  | builtin : Origin
deriving Repr, DecidableEq

/-- The algorithm family of a public or private key. -/
inductive PkFamily where
  | rsa : PkFamily
  | ec : PkFamily
deriving Repr, DecidableEq

/-- The static `certificate`: the decoded chain and the algorithm of its
public key. -/
structure X509Chain where
  origin : Origin
  pk : PkFamily
deriving Repr, DecidableEq

/-- The static `key` (`mbedtls_pk_context`). -/
structure PkContext where
  origin : Origin
  family : PkFamily
deriving Repr, DecidableEq

/-- Lines written through `Log_warn` and `Log_info`. -/
inductive LogLine where
  | warnNoCertificateFallback : LogLine
  | warnUnreadableCertificateFallback : String → LogLine
  | warnUsingBuiltin : LogLine
  | warnNotSecure : LogLine
  | infoLibraryReady : LogLine
deriving Repr, DecidableEq

/-- The messages passed to `Log_fatal`. -/
inductive FatalMsg where
  | builtinCertificate : FatalMsg
  | builtinKey : FatalMsg
  | noCertificateFile : FatalMsg
  | readCertificateFile : String → FatalMsg
  | noKeyFile : FatalMsg
  | readKeyFile : String → FatalMsg
  | openUrandom : FatalMsg
  | outOfMemory : FatalMsg
  | configDefaults : Int → FatalMsg
  | confOwnCert : Int → FatalMsg
  | confDhParam : Int → FatalMsg
  | sslSetup : Int → FatalMsg
deriving Repr, DecidableEq

/-- Modelled from the spec: `Log_fatal` (log.c is not among the sources). The
spec says that fatal messages terminate process startup, so a call of
`Log_fatal` ends the run with its message and nothing after it is executed. -/
inductive Startup (α : Type) where
  | fatal : FatalMsg → Startup α
  | ok : α → Startup α
deriving Repr, DecidableEq

/-- Everything the credential store obtains from outside the file: the build
options, the two configured paths (`getStrConf`), the results the engine gives
for the files named and for the built-in test material, and the result of
opening the random device. `crt_pk` and `key_family` give the algorithm of the
certificate and of the key decoded from a file. -/
structure Env where
  USE_MBEDTLS_TESTCERT : Bool
  USE_MBEDTLS_HAVEGE : Bool
  CERTIFICATE : Option String
  KEY : Option String
  mbedtls_x509_crt_parse_file : String → Int
  crt_pk : String → PkFamily
  mbedtls_pk_parse_keyfile : String → Int
  key_family : String → PkFamily
  test_srv_crt_rc : Int
  test_srv_key_rc : Int
  open_urandom : Int

/-- The file-scope variables of the credential store, with the log. The engine
is taken to store a decoded chain or key exactly when it reports 0. -/
structure Globals where
  certificate : Option X509Chain
  key : Option PkContext
  builtInTestCertificate : Bool
  urandom_fd : Int
  log : List LogLine
deriving Repr, DecidableEq

/-- The variables as the C runtime sets them up before `SSLi_init`. -/
def Globals.start : Globals where
  certificate := none
  key := none
  builtInTestCertificate := false
  urandom_fd := 0
  log := []

/-- Embeds `Log_warn` and `Log_info`: append a line to the log. -/
def Globals.logLine (g : Globals) (l : LogLine) : Globals :=
  { g with log := g.log ++ [l] }

/-- The engine's `mbedtls_pk_can_do(pk, type)`: whether the key is of the
family asked for. -/
def mbedtls_pk_can_do (pk : PkContext) (type : PkFamily) : Bool :=
  pk.family == type

/-- Embeds `static inline int x509parse_keyfile(pk, path, pwd)`: the returned code and
the key context. -/
def x509parse_keyfile (c : EngineCodes) (env : Env) (path : String) : Int × PkContext :=
  let pk : PkContext := { origin := Origin.file path, family := env.key_family path }
  let ret := env.mbedtls_pk_parse_keyfile path
  if ret = 0 ∧ ¬ (mbedtls_pk_can_do pk PkFamily.rsa = true) then
    (c.MBEDTLS_ERR_PK_TYPE_MISMATCH, pk)
  else
    (ret, pk)

/-- Embeds `static void initTestCert()`. -/
def initTestCert (env : Env) (g : Globals) : Startup Globals :=
  let g1 := { g with builtInTestCertificate := true }
  let rc := env.test_srv_crt_rc
  if rc ≠ 0 then
    Startup.fatal FatalMsg.builtinCertificate
  else
    Startup.ok { g1 with certificate := some { origin := Origin.builtin, pk := PkFamily.rsa } }

/-- Embeds `static void initTestKey()`. -/
def initTestKey (env : Env) (g : Globals) : Startup Globals :=
  let rc := env.test_srv_key_rc
  if rc ≠ 0 then
    Startup.fatal FatalMsg.builtinKey
  else
    Startup.ok { g with key := some { origin := Origin.builtin, family := PkFamily.rsa } }

/-- Embeds `static void initCert()`. -/
def initCert (env : Env) (g : Globals) : Startup Globals :=
  match env.CERTIFICATE with
  | none =>
    if env.USE_MBEDTLS_TESTCERT then
      initTestCert env (g.logLine LogLine.warnNoCertificateFallback)
    else
      Startup.fatal FatalMsg.noCertificateFile
  | some crtfile =>
    let rc := env.mbedtls_x509_crt_parse_file crtfile
    if rc ≠ 0 then
      if env.USE_MBEDTLS_TESTCERT then
        initTestCert env (g.logLine (LogLine.warnUnreadableCertificateFallback crtfile))
      else
        Startup.fatal (FatalMsg.readCertificateFile crtfile)
    else
      Startup.ok
        { g with certificate := some { origin := Origin.file crtfile, pk := env.crt_pk crtfile } }

/-- Embeds `static void initKey()`. -/
def initKey (c : EngineCodes) (env : Env) (g : Globals) : Startup Globals :=
  match env.KEY with
  | none => Startup.fatal FatalMsg.noKeyFile
  | some keyfile =>
    let rc := (x509parse_keyfile c env keyfile).1
    if rc ≠ 0 then
      Startup.fatal (FatalMsg.readKeyFile keyfile)
    else
      Startup.ok { g with key := some (x509parse_keyfile c env keyfile).2 }

/-- The random-number-generator part of `SSLi_init` and its closing
`Log_info`. -/
def initRng (env : Env) (g : Globals) : Startup Globals :=
  if env.USE_MBEDTLS_HAVEGE then
    Startup.ok (g.logLine LogLine.infoLibraryReady)
  else
    let fd := env.open_urandom
    if fd < 0 then
      Startup.fatal FatalMsg.openUrandom
    else
      Startup.ok ({ g with urandom_fd := fd }.logLine LogLine.infoLibraryReady)

/-- The key-loading part of `SSLi_init`: the `#ifdef USE_MBEDTLS_TESTCERT`
block that follows `initCert()`. -/
def initKeyStep (c : EngineCodes) (env : Env) (g : Globals) : Startup Globals :=
  if env.USE_MBEDTLS_TESTCERT then
    if g.builtInTestCertificate then
      initTestKey env ((g.logLine LogLine.warnUsingBuiltin).logLine LogLine.warnNotSecure)
    else
      initKey c env g
  else
    initKey c env g

/-- Embeds `void SSLi_init(void)`. -/
def SSLi_init (c : EngineCodes) (env : Env) (g : Globals) : Startup Globals :=
  match initCert env g with
  | Startup.fatal m => Startup.fatal m
  | Startup.ok g1 =>
    match initKeyStep c env g1 with
    | Startup.fatal m => Startup.fatal m
    | Startup.ok g2 => initRng env g2

/-- The spec's requirement on the pair: the private key's algorithm family is
that of the certificate's public key. -/
def compatiblePair (crt : X509Chain) (key : PkContext) : Bool :=
  crt.pk == key.family

/-- A configuration for concrete runs: both paths configured, every file
decodes, RSA certificate and RSA key, no built-in fallback, the random device
opens as descriptor 3. -/
def sampleEnv : Env where
  USE_MBEDTLS_TESTCERT := false
  USE_MBEDTLS_HAVEGE := false
  CERTIFICATE := some "server.crt"
  KEY := some "server.key"
  mbedtls_x509_crt_parse_file := fun _ => 0
  crt_pk := fun _ => PkFamily.rsa
  mbedtls_pk_parse_keyfile := fun _ => 0
  key_family := fun _ => PkFamily.rsa
  test_srv_crt_rc := 0
  test_srv_key_rc := 0
  open_urandom := 3

/-! ## Connection factory and teardown -/

/-- What the engine does in the calls of `SSLi_newconnection` and `SSLi_free`:
the result of each configuration call (that of `mbedtls_ssl_conf_own_cert` may
depend on the certificate and key handed to it), and whether
`mbedtls_ssl_free` wipes the context it is given, as mbedTLS 2.x does. -/
structure FactoryEngine where
  mbedtls_ssl_config_defaults : Int
  mbedtls_ssl_conf_own_cert : Option X509Chain → Option PkContext → Int
  mbedtls_ssl_conf_dh_param : Int
  mbedtls_ssl_setup : Int
  mbedtls_ssl_free_wipes : Bool

/-- What happens to the blocks of a connection, in order. -/
inductive HeapEvent where
  | config_free : Nat → HeapEvent
  | ssl_free : Nat → HeapEvent
  | read_conf : Nat → Nat → HeapEvent
  | free : Nat → HeapEvent
deriving Repr, DecidableEq

/-- The C heap as far as the connection objects are concerned. Addresses are
natural numbers and 0 is `NULL`. `live` lists the blocks handed out by `calloc`
and not yet given to `free`; `avail` is the number of blocks `calloc` can still
hand out; `conf_of` holds the `conf` field of each context; `released` lists
the contexts whose contents `mbedtls_ssl_free` has released; `events` is the
history of releases and of reads of `ssl->conf`. -/
structure Heap where
  next : Nat
  avail : Nat
  live : List Nat
  conf_of : List (Nat × Nat)
  released : List Nat
  events : List HeapEvent
deriving Repr, DecidableEq

/-- An empty heap with room for `n` blocks. -/
def Heap.empty (n : Nat) : Heap where
  next := 1
  avail := n
  live := []
  conf_of := []
  released := []
  events := []

/-- Embeds `calloc(1, size)`: a fresh block, or `NULL` when none is left. -/
def calloc (h : Heap) : Nat × Heap :=
  if h.avail = 0 then
    (0, h)
  else
    (h.next, { h with next := h.next + 1, avail := h.avail - 1, live := h.next :: h.live })

/-- Embeds `free(p)`; `free(NULL)` does nothing. -/
def free (p : Nat) (h : Heap) : Heap :=
  if p = 0 then
    { h with events := h.events ++ [HeapEvent.free 0] }
  else
    { h with live := h.live.erase p, avail := h.avail + 1,
             events := h.events ++ [HeapEvent.free p] }

/-- The value of `ssl->conf`. -/
def Heap.conf (h : Heap) (ssl : Nat) : Nat :=
  (h.conf_of.lookup ssl).getD 0

/-- Assignment to `ssl->conf`. -/
def Heap.setConf (h : Heap) (ssl conf : Nat) : Heap :=
  { h with conf_of := (ssl, conf) :: h.conf_of.filter (fun e => e.1 != ssl) }

/-- Embeds `SSL_handle_t *SSLi_newconnection(int *fd, bool_t *SSLready)`: the handle
returned and the heap afterwards. `mbedtls_ssl_setup(ssl, conf)` stores `conf`
in `ssl->conf`; `mbedtls_ssl_set_session(ssl, ssn)` does not keep `ssn`. -/
def SSLi_newconnection (eng : FactoryEngine) (g : Globals) (h : Heap) : Startup (Nat × Heap) :=
  let ssl := (calloc h).1
  let h1 := (calloc h).2
  let ssn := (calloc h1).1
  let h2 := (calloc h1).2
  let conf := (calloc h2).1
  let h3 := (calloc h2).2
  if ssl = 0 ∨ ssn = 0 ∨ conf = 0 then
    Startup.fatal FatalMsg.outOfMemory
  else if eng.mbedtls_ssl_config_defaults ≠ 0 then
    Startup.fatal (FatalMsg.configDefaults eng.mbedtls_ssl_config_defaults)
  else if eng.mbedtls_ssl_conf_own_cert g.certificate g.key ≠ 0 then
    Startup.fatal (FatalMsg.confOwnCert (eng.mbedtls_ssl_conf_own_cert g.certificate g.key))
  else if eng.mbedtls_ssl_conf_dh_param ≠ 0 then
    Startup.fatal (FatalMsg.confDhParam eng.mbedtls_ssl_conf_dh_param)
  else if eng.mbedtls_ssl_setup ≠ 0 then
    Startup.fatal (FatalMsg.sslSetup eng.mbedtls_ssl_setup)
  else
    Startup.ok (ssl, h3.setConf ssl conf)

/-- Embeds `mbedtls_ssl_config_free(conf)`: releases what the configuration holds, not
the block itself. -/
def mbedtls_ssl_config_free (conf : Nat) (h : Heap) : Heap :=
  { h with events := h.events ++ [HeapEvent.config_free conf] }

/-- Embeds `mbedtls_ssl_free(ssl)`: releases what the context holds, not the block
itself, and wipes the context when the engine does so. -/
def mbedtls_ssl_free (eng : FactoryEngine) (ssl : Nat) (h : Heap) : Heap :=
  let h1 := { h with released := ssl :: h.released,
                     events := h.events ++ [HeapEvent.ssl_free ssl] }
  if eng.mbedtls_ssl_free_wipes then h1.setConf ssl 0 else h1

/-- The read of `ssl->conf`, entered in the history with the value read. -/
def readConf (ssl : Nat) (h : Heap) : Nat × Heap :=
  (h.conf ssl, { h with events := h.events ++ [HeapEvent.read_conf ssl (h.conf ssl)] })

/-- Embeds `void SSLi_free(SSL_handle_t *ssl)`. -/
def SSLi_free (eng : FactoryEngine) (ssl : Nat) (h : Heap) : Heap :=
  let r1 := readConf ssl h
  let h1 := mbedtls_ssl_config_free r1.1 r1.2
  let h2 := mbedtls_ssl_free eng ssl h1
  let r2 := readConf ssl h2
  let h3 := free r2.1 r2.2
  free ssl h3

/-- An engine whose configuration calls all succeed; `wipes` says whether
`mbedtls_ssl_free` wipes the context. -/
def okEngine (wipes : Bool) : FactoryEngine where
  mbedtls_ssl_config_defaults := 0
  mbedtls_ssl_conf_own_cert := fun _ _ => 0
  mbedtls_ssl_conf_dh_param := 0
  mbedtls_ssl_setup := 0
  mbedtls_ssl_free_wipes := wipes

/-! # Properties -/

/-! ## Handshake driver -/

theorem afterCalls_ssl {σ : Type} (c : EngineCodes) (e : Engine σ) (n : Nat) (conn : Conn σ) :
    (afterCalls c e n conn).ssl = engineAfter e n conn.ssl := by
  induction n generalizing conn with
  | zero => rfl
  | succ n ih =>
    simp only [afterCalls, engineAfter]
    rw [ih]
    simp only [acceptCall, SSLi_nonblockaccept]
    split_ifs <;> rfl

theorem afterCalls_succ {σ : Type} (c : EngineCodes) (e : Engine σ) (n : Nat) (conn : Conn σ) :
    afterCalls c e (n + 1) conn = (acceptCall c e (afterCalls c e n conn)).2 := by
  induction n generalizing conn with
  | zero => rfl
  | succ n ih =>
    rw [afterCalls, ih]
    rfl

theorem acceptCall_block {σ : Type} (c : EngineCodes) (e : Engine σ) (conn : Conn σ)
    (hR : c.MBEDTLS_ERR_SSL_WANT_READ ≠ 0) (hW : c.MBEDTLS_ERR_SSL_WANT_WRITE ≠ 0)
    (h : (e.mbedtls_ssl_handshake conn.ssl).1 = c.MBEDTLS_ERR_SSL_WANT_READ ∨
      (e.mbedtls_ssl_handshake conn.ssl).1 = c.MBEDTLS_ERR_SSL_WANT_WRITE) :
    (acceptCall c e conn).1 = 0 ∧ (acceptCall c e conn).2.SSLready = conn.SSLready := by
  have hne : (e.mbedtls_ssl_handshake conn.ssl).1 ≠ 0 := by
    rcases h with h | h <;> rw [h] <;> assumption
  simp [acceptCall, SSLi_nonblockaccept, hne, h]

theorem acceptCall_success {σ : Type} (c : EngineCodes) (e : Engine σ) (conn : Conn σ)
    (h : (e.mbedtls_ssl_handshake conn.ssl).1 = 0) :
    (acceptCall c e conn).1 = 0 ∧ (acceptCall c e conn).2.SSLready = true := by
  simp [acceptCall, SSLi_nonblockaccept, h]

theorem afterCalls_blocked {σ : Type} (c : EngineCodes) (e : Engine σ) (conn : Conn σ)
    (hR : c.MBEDTLS_ERR_SSL_WANT_READ ≠ 0) (hW : c.MBEDTLS_ERR_SSL_WANT_WRITE ≠ 0)
    (n : Nat)
    (h : ∀ k, k < n → handshakeResult e conn.ssl k = c.MBEDTLS_ERR_SSL_WANT_READ ∨
      handshakeResult e conn.ssl k = c.MBEDTLS_ERR_SSL_WANT_WRITE) :
    (afterCalls c e n conn).SSLready = conn.SSLready := by
  induction n with
  | zero => rfl
  | succ n ih =>
    rw [afterCalls_succ]
    have hprev := ih (fun k hk => h k (Nat.lt_succ_of_lt hk))
    have hk := h n (Nat.lt_succ_self n)
    unfold handshakeResult at hk
    rw [← afterCalls_ssl c e n conn] at hk
    rw [(acceptCall_block c e _ hR hW hk).2, hprev]

/-- C1: if the engine reports want-read or want-write on the first `N`
handshake calls and 0 on call `N+1`, then on a connection whose ready flag is
false each of the first `N` calls of `SSLi_nonblockaccept` returns 0 and leaves
the flag false, and call `N+1` returns 0 and sets the flag. -/
theorem nonblockaccept_wouldblock_then_established {σ : Type} (c : EngineCodes)
    (e : Engine σ) (N : Nat) (conn : Conn σ)
    (hR : c.MBEDTLS_ERR_SSL_WANT_READ ≠ 0) (hW : c.MBEDTLS_ERR_SSL_WANT_WRITE ≠ 0)
    (hready : conn.SSLready = false)
    (hblock : ∀ k, k < N → handshakeResult e conn.ssl k = c.MBEDTLS_ERR_SSL_WANT_READ ∨
      handshakeResult e conn.ssl k = c.MBEDTLS_ERR_SSL_WANT_WRITE)
    (hdone : handshakeResult e conn.ssl N = 0) :
    (∀ k, k < N →
      (afterCalls c e k conn).SSLready = false ∧
      (acceptCall c e (afterCalls c e k conn)).1 = 0 ∧
      (acceptCall c e (afterCalls c e k conn)).2.SSLready = false) ∧
    (afterCalls c e N conn).SSLready = false ∧
    (acceptCall c e (afterCalls c e N conn)).1 = 0 ∧
    (acceptCall c e (afterCalls c e N conn)).2.SSLready = true := by
  have hflag : ∀ k, k ≤ N → (afterCalls c e k conn).SSLready = false := by
    intro k hk
    rw [afterCalls_blocked c e conn hR hW k (fun j hj => hblock j (lt_of_lt_of_le hj hk))]
    exact hready
  refine ⟨?_, hflag N le_rfl, ?_⟩
  · intro k hk
    have hk1 := hblock k hk
    unfold handshakeResult at hk1
    rw [← afterCalls_ssl c e k conn] at hk1
    have hb := acceptCall_block c e _ hR hW hk1
    exact ⟨hflag k (le_of_lt hk), hb.1, by rw [hb.2]; exact hflag k (le_of_lt hk)⟩
  · unfold handshakeResult at hdone
    rw [← afterCalls_ssl c e N conn] at hdone
    exact acceptCall_success c e _ hdone

/-- Witness of C1: the engine reports want-read, want-write, want-read and
then 0; three calls block and the fourth establishes. -/
theorem nonblockaccept_wouldblock_then_established_witness :
    (∀ k, k < 3 →
      (afterCalls mbedtlsCodes scriptedEngine k
        ⟨[-26880, -26752, -26880, 0], false⟩).SSLready = false ∧
      (acceptCall mbedtlsCodes scriptedEngine (afterCalls mbedtlsCodes scriptedEngine k
        ⟨[-26880, -26752, -26880, 0], false⟩)).1 = 0 ∧
      (acceptCall mbedtlsCodes scriptedEngine (afterCalls mbedtlsCodes scriptedEngine k
        ⟨[-26880, -26752, -26880, 0], false⟩)).2.SSLready = false) ∧
    (afterCalls mbedtlsCodes scriptedEngine 3
      ⟨[-26880, -26752, -26880, 0], false⟩).SSLready = false ∧
    (acceptCall mbedtlsCodes scriptedEngine (afterCalls mbedtlsCodes scriptedEngine 3
      ⟨[-26880, -26752, -26880, 0], false⟩)).1 = 0 ∧
    (acceptCall mbedtlsCodes scriptedEngine (afterCalls mbedtlsCodes scriptedEngine 3
      ⟨[-26880, -26752, -26880, 0], false⟩)).2.SSLready = true :=
  nonblockaccept_wouldblock_then_established mbedtlsCodes scriptedEngine 3
    ⟨[-26880, -26752, -26880, 0], false⟩ (by decide) (by decide) rfl
    (by decide) (by decide)

/-- C2: `SSLi_nonblockaccept` returns -1 exactly when the engine result is
non-zero and is none of want-read, want-write and certificate-verification
failed; a verification failure is answered with 0; and a failing call leaves
the ready flag as it was. -/
theorem nonblockaccept_failure_iff {σ : Type} (c : EngineCodes) (e : Engine σ) (ssl : σ)
    (SSLready : Bool) :
    ((SSLi_nonblockaccept c e ssl SSLready).1 = -1 ↔
      ((e.mbedtls_ssl_handshake ssl).1 ≠ 0 ∧
       (e.mbedtls_ssl_handshake ssl).1 ≠ c.MBEDTLS_ERR_SSL_WANT_READ ∧
       (e.mbedtls_ssl_handshake ssl).1 ≠ c.MBEDTLS_ERR_SSL_WANT_WRITE ∧
       (e.mbedtls_ssl_handshake ssl).1 ≠ c.MBEDTLS_ERR_X509_CERT_VERIFY_FAILED)) ∧
    ((e.mbedtls_ssl_handshake ssl).1 = c.MBEDTLS_ERR_X509_CERT_VERIFY_FAILED →
      (SSLi_nonblockaccept c e ssl SSLready).1 = 0) ∧
    ((SSLi_nonblockaccept c e ssl SSLready).1 = -1 →
      (SSLi_nonblockaccept c e ssl SSLready).2.2 = SSLready) := by
  simp only [SSLi_nonblockaccept]
  refine ⟨?_, ?_, ?_⟩
  · split_ifs with h0 h1 h2
    · constructor
      · intro h; exact absurd h (by decide)
      · rintro ⟨_, h3, h4, _⟩
        rcases h1 with h1 | h1
        · exact absurd h1 h3
        · exact absurd h1 h4
    · constructor
      · intro h; exact absurd h (by decide)
      · rintro ⟨_, _, _, h5⟩
        exact absurd h2 h5
    · constructor
      · intro _
        exact ⟨h0, fun h => h1 (Or.inl h), fun h => h1 (Or.inr h), h2⟩
      · intro _; rfl
    · constructor
      · intro h; exact absurd h (by decide)
      · rintro ⟨h3, _⟩
        exact absurd (not_not.mp h0) h3
  · intro hv
    split_ifs <;> rfl
  · split_ifs with h0 h1 h2
    · intro _; rfl
    · intro _; rfl
    · intro _; rfl
    · intro h; exact absurd h (by decide)

theorem acceptCall_ready_mono {σ : Type} (c : EngineCodes) (e : Engine σ) (conn : Conn σ)
    (h : conn.SSLready = true) : (acceptCall c e conn).2.SSLready = true := by
  simp only [acceptCall, SSLi_nonblockaccept]
  split_ifs <;> simp [h]

/-- C3 (as stated, refuted): with the engine reporting a fatal code and then 0,
the first call returns -1 and the second call sets the ready flag; with the
engine reporting 0 and then a fatal code, the first call sets the ready flag
and the second call returns -1. -/
theorem nonblockaccept_not_absorbing :
    ((acceptCall mbedtlsCodes scriptedEngine ⟨[-29184, 0], false⟩).1 = -1 ∧
     (acceptCall mbedtlsCodes scriptedEngine ⟨[-29184, 0], false⟩).2.SSLready = false ∧
     (acceptCall mbedtlsCodes scriptedEngine
        (afterCalls mbedtlsCodes scriptedEngine 1 ⟨[-29184, 0], false⟩)).1 = 0 ∧
     (afterCalls mbedtlsCodes scriptedEngine 2 ⟨[-29184, 0], false⟩).SSLready = true) ∧
    ((acceptCall mbedtlsCodes scriptedEngine ⟨[0, -29184], false⟩).1 = 0 ∧
     (afterCalls mbedtlsCodes scriptedEngine 1 ⟨[0, -29184], false⟩).SSLready = true ∧
     (acceptCall mbedtlsCodes scriptedEngine
        (afterCalls mbedtlsCodes scriptedEngine 1 ⟨[0, -29184], false⟩)).1 = -1) := by
  decide

theorem afterCalls_ready_mono {σ : Type} (c : EngineCodes) (e : Engine σ) (conn : Conn σ)
    (k j : Nat) (hkj : k ≤ j) (hest : (afterCalls c e k conn).SSLready = true) :
    (afterCalls c e j conn).SSLready = true := by
  induction j with
  | zero =>
    have : k = 0 := Nat.le_zero.mp hkj
    subst this
    exact hest
  | succ j ih =>
    rcases Nat.lt_or_ge k (j + 1) with hlt | hge
    · rw [afterCalls_succ]
      exact acceptCall_ready_mono c e _ (ih (Nat.lt_succ_iff.mp hlt))
    · have : k = j + 1 := le_antisymm hkj hge
      subst this
      exact hest

theorem nonblockaccept_status {σ : Type} (c : EngineCodes) (e : Engine σ) (ssl : σ)
    (SSLready : Bool) :
    (SSLi_nonblockaccept c e ssl SSLready).1 =
      if (e.mbedtls_ssl_handshake ssl).1 = 0 ∨
          (e.mbedtls_ssl_handshake ssl).1 = c.MBEDTLS_ERR_SSL_WANT_READ ∨
          (e.mbedtls_ssl_handshake ssl).1 = c.MBEDTLS_ERR_SSL_WANT_WRITE ∨
          (e.mbedtls_ssl_handshake ssl).1 = c.MBEDTLS_ERR_X509_CERT_VERIFY_FAILED
      then 0 else -1 := by
  simp only [SSLi_nonblockaccept]
  by_cases h0 : (e.mbedtls_ssl_handshake ssl).1 = 0
  · simp [h0]
  · by_cases h1 : (e.mbedtls_ssl_handshake ssl).1 = c.MBEDTLS_ERR_SSL_WANT_READ ∨
        (e.mbedtls_ssl_handshake ssl).1 = c.MBEDTLS_ERR_SSL_WANT_WRITE
    · have hor : (e.mbedtls_ssl_handshake ssl).1 = 0 ∨
          (e.mbedtls_ssl_handshake ssl).1 = c.MBEDTLS_ERR_SSL_WANT_READ ∨
          (e.mbedtls_ssl_handshake ssl).1 = c.MBEDTLS_ERR_SSL_WANT_WRITE ∨
          (e.mbedtls_ssl_handshake ssl).1 = c.MBEDTLS_ERR_X509_CERT_VERIFY_FAILED := by
        rcases h1 with h1 | h1
        · exact Or.inr (Or.inl h1)
        · exact Or.inr (Or.inr (Or.inl h1))
      rw [if_pos hor, if_pos (by simpa using h0), if_pos h1]
    · by_cases h2 : (e.mbedtls_ssl_handshake ssl).1 = c.MBEDTLS_ERR_X509_CERT_VERIFY_FAILED
      · rw [if_pos (Or.inr (Or.inr (Or.inr h2))), if_pos (by simpa using h0), if_neg h1,
          if_pos h2]
      · have hnor : ¬ ((e.mbedtls_ssl_handshake ssl).1 = 0 ∨
            (e.mbedtls_ssl_handshake ssl).1 = c.MBEDTLS_ERR_SSL_WANT_READ ∨
            (e.mbedtls_ssl_handshake ssl).1 = c.MBEDTLS_ERR_SSL_WANT_WRITE ∨
            (e.mbedtls_ssl_handshake ssl).1 = c.MBEDTLS_ERR_X509_CERT_VERIFY_FAILED) := by
          rintro (h | h | h | h)
          · exact h0 h
          · exact h1 (Or.inl h)
          · exact h1 (Or.inr h)
          · exact h2 h
        rw [if_neg hnor, if_pos (by simpa using h0), if_neg h1, if_neg h2]

theorem acceptCall_fatal {σ : Type} (c : EngineCodes) (e : Engine σ) (conn : Conn σ)
    (h0 : (e.mbedtls_ssl_handshake conn.ssl).1 ≠ 0)
    (hr : (e.mbedtls_ssl_handshake conn.ssl).1 ≠ c.MBEDTLS_ERR_SSL_WANT_READ)
    (hw : (e.mbedtls_ssl_handshake conn.ssl).1 ≠ c.MBEDTLS_ERR_SSL_WANT_WRITE)
    (hv : (e.mbedtls_ssl_handshake conn.ssl).1 ≠ c.MBEDTLS_ERR_X509_CERT_VERIFY_FAILED) :
    (acceptCall c e conn).1 = -1 ∧ (acceptCall c e conn).2.SSLready = conn.SSLready := by
  simp [acceptCall, SSLi_nonblockaccept, h0, hr, hw, hv]

/-- C3 (amended): `SSLi_nonblockaccept` keeps no handshake state and rejects no
call. (1) The ready flag, once true, is true after any number of further calls,
whatever the engine reports. (2) Every call invokes the engine: the context a
call leaves is the one the engine's handshake leaves, and after `n` calls the
engine has been stepped `n` times. (3) The status of a call depends only on
what the engine reports on that call: 0 for success, want-read, want-write and
verification failure, -1 for anything else, whatever the flag. (4) After a call
has returned -1, a later call on which the engine reports 0 returns 0 and sets
the flag. (5) After the flag is set, a later call on which the engine reports a
fatal code returns -1, the flag staying true. -/
theorem nonblockaccept_ready_never_cleared {σ : Type} (c : EngineCodes) (e : Engine σ) :
    (∀ (conn : Conn σ) (k j : Nat), k ≤ j → (afterCalls c e k conn).SSLready = true →
      (afterCalls c e j conn).SSLready = true) ∧
    (∀ (ssl : σ) (SSLready : Bool),
      (SSLi_nonblockaccept c e ssl SSLready).2.1 = (e.mbedtls_ssl_handshake ssl).2) ∧
    (∀ (conn : Conn σ) (n : Nat), (afterCalls c e n conn).ssl = engineAfter e n conn.ssl) ∧
    (∀ (ssl : σ) (SSLready : Bool),
      (SSLi_nonblockaccept c e ssl SSLready).1 =
        if (e.mbedtls_ssl_handshake ssl).1 = 0 ∨
            (e.mbedtls_ssl_handshake ssl).1 = c.MBEDTLS_ERR_SSL_WANT_READ ∨
            (e.mbedtls_ssl_handshake ssl).1 = c.MBEDTLS_ERR_SSL_WANT_WRITE ∨
            (e.mbedtls_ssl_handshake ssl).1 = c.MBEDTLS_ERR_X509_CERT_VERIFY_FAILED
        then 0 else -1) ∧
    (∀ (conn : Conn σ) (k j : Nat), k < j →
      (acceptCall c e (afterCalls c e k conn)).1 = -1 →
      handshakeResult e conn.ssl j = 0 →
      (acceptCall c e (afterCalls c e j conn)).1 = 0 ∧
      (afterCalls c e (j + 1) conn).SSLready = true) ∧
    (∀ (conn : Conn σ) (k j : Nat), k ≤ j →
      (afterCalls c e k conn).SSLready = true →
      handshakeResult e conn.ssl j ≠ 0 →
      handshakeResult e conn.ssl j ≠ c.MBEDTLS_ERR_SSL_WANT_READ →
      handshakeResult e conn.ssl j ≠ c.MBEDTLS_ERR_SSL_WANT_WRITE →
      handshakeResult e conn.ssl j ≠ c.MBEDTLS_ERR_X509_CERT_VERIFY_FAILED →
      (acceptCall c e (afterCalls c e j conn)).1 = -1 ∧
      (afterCalls c e (j + 1) conn).SSLready = true) := by
  refine ⟨?_, ?_, ?_, ?_, ?_, ?_⟩
  · intro conn k j hkj hest
    exact afterCalls_ready_mono c e conn k j hkj hest
  · intro ssl SSLready
    simp only [SSLi_nonblockaccept]
    split_ifs <;> rfl
  · intro conn n
    exact afterCalls_ssl c e n conn
  · intro ssl SSLready
    exact nonblockaccept_status c e ssl SSLready
  · intro conn k j _ _ hzero
    unfold handshakeResult at hzero
    rw [← afterCalls_ssl c e j conn] at hzero
    rw [afterCalls_succ]
    exact acceptCall_success c e _ hzero
  · intro conn k j hkj hest h0 hr hw hv
    unfold handshakeResult at h0 hr hw hv
    rw [← afterCalls_ssl c e j conn] at h0 hr hw hv
    have hf := acceptCall_fatal c e _ h0 hr hw hv
    refine ⟨hf.1, ?_⟩
    rw [afterCalls_succ, hf.2]
    exact afterCalls_ready_mono c e conn k j hkj hest

/-- Witness of the amended C3 on the engine results 0 and then a fatal code:
established by the first call, the second call returns -1 and the connection
is still marked ready. -/
theorem nonblockaccept_ready_never_cleared_witness :
    (acceptCall mbedtlsCodes scriptedEngine
      (afterCalls mbedtlsCodes scriptedEngine 1 ⟨[0, -29184], false⟩)).1 = -1 ∧
    (afterCalls mbedtlsCodes scriptedEngine (1 + 1) ⟨[0, -29184], false⟩).SSLready = true :=
  (nonblockaccept_ready_never_cleared mbedtlsCodes scriptedEngine).2.2.2.2.2
    ⟨[0, -29184], false⟩ 1 1 (le_refl 1) (by decide) (by decide) (by decide) (by decide)
    (by decide)

/-! ## Record I/O -/

/-- C4: `SSLi_read` returns `SSLI_ERROR_WANT_READ` when the engine's read
result is its want-read code and the engine's result unchanged otherwise;
`SSLi_write` likewise with want-write and `SSLI_ERROR_WANT_WRITE`. With
non-zero sentinels, a want-read or want-write result is therefore never
reported as a byte count of zero. -/
theorem read_write_sentinel {σ : Type} (c : EngineCodes) (e : Engine σ) (ssl : σ)
    (len : Nat) (buf : List Nat)
    (hR : c.SSLI_ERROR_WANT_READ ≠ 0) (hW : c.SSLI_ERROR_WANT_WRITE ≠ 0) :
    ((e.mbedtls_ssl_read ssl len).1 = c.MBEDTLS_ERR_SSL_WANT_READ →
      (SSLi_read c e ssl len).1 = c.SSLI_ERROR_WANT_READ ∧ (SSLi_read c e ssl len).1 ≠ 0) ∧
    ((e.mbedtls_ssl_read ssl len).1 ≠ c.MBEDTLS_ERR_SSL_WANT_READ →
      (SSLi_read c e ssl len).1 = (e.mbedtls_ssl_read ssl len).1) ∧
    ((e.mbedtls_ssl_write ssl buf).1 = c.MBEDTLS_ERR_SSL_WANT_WRITE →
      (SSLi_write c e ssl buf).1 = c.SSLI_ERROR_WANT_WRITE ∧ (SSLi_write c e ssl buf).1 ≠ 0) ∧
    ((e.mbedtls_ssl_write ssl buf).1 ≠ c.MBEDTLS_ERR_SSL_WANT_WRITE →
      (SSLi_write c e ssl buf).1 = (e.mbedtls_ssl_write ssl buf).1) := by
  refine ⟨?_, ?_, ?_, ?_⟩
  · intro h
    simp [SSLi_read, h, hR]
  · intro h
    simp [SSLi_read, h]
  · intro h
    simp [SSLi_write, h, hW]
  · intro h
    simp [SSLi_write, h]

/-- Witness of C4 on the scripted engine with the context `[-26880]` (a
want-read result on read) and the sample codes. -/
theorem read_write_sentinel_witness :
    ((scriptedEngine.mbedtls_ssl_read [-26880] 16).1 = mbedtlsCodes.MBEDTLS_ERR_SSL_WANT_READ →
      (SSLi_read mbedtlsCodes scriptedEngine [-26880] 16).1 = mbedtlsCodes.SSLI_ERROR_WANT_READ ∧
      (SSLi_read mbedtlsCodes scriptedEngine [-26880] 16).1 ≠ 0) ∧
    ((scriptedEngine.mbedtls_ssl_read [-26880] 16).1 ≠ mbedtlsCodes.MBEDTLS_ERR_SSL_WANT_READ →
      (SSLi_read mbedtlsCodes scriptedEngine [-26880] 16).1 =
        (scriptedEngine.mbedtls_ssl_read [-26880] 16).1) ∧
    ((scriptedEngine.mbedtls_ssl_write [-26880] [1, 2]).1 =
        mbedtlsCodes.MBEDTLS_ERR_SSL_WANT_WRITE →
      (SSLi_write mbedtlsCodes scriptedEngine [-26880] [1, 2]).1 =
        mbedtlsCodes.SSLI_ERROR_WANT_WRITE ∧
      (SSLi_write mbedtlsCodes scriptedEngine [-26880] [1, 2]).1 ≠ 0) ∧
    ((scriptedEngine.mbedtls_ssl_write [-26880] [1, 2]).1 ≠
        mbedtlsCodes.MBEDTLS_ERR_SSL_WANT_WRITE →
      (SSLi_write mbedtlsCodes scriptedEngine [-26880] [1, 2]).1 =
        (scriptedEngine.mbedtls_ssl_write [-26880] [1, 2]).1) :=
  read_write_sentinel mbedtlsCodes scriptedEngine [-26880] 16 [1, 2] (by decide) (by decide)

/-! ## Entropy source -/

/-- C5 (the code at the failing input): asked for 4 bytes, with the device
giving 2 bytes on each of two reads, `urandom_bytes` returns 0 having stored
both reads at `dest[0..1]`; `dest[2]` and `dest[3]` were never written. -/
theorem urandom_bytes_short_reads_leave_tail :
    urandom_bytes [ReadResult.bytes [170, 187], ReadResult.bytes [204, 221]]
      [none, none, none, none] 4 = some (0, [some 204, some 221, none, none]) := by
  decide

/-! ## Peer identity extractor -/

/-- C10: `SSLi_getSHA1Hash` returns false exactly when the engine has no peer
certificate, and then leaves `hash` as it was; otherwise it returns true and
the first 20 bytes of `hash` are the digest of the raw bytes of the peer
certificate, the rest of `hash` being untouched; two connections whose peer
certificates have the same raw bytes get the same 20-byte digest. -/
theorem getSHA1Hash_fingerprint {σ : Type}
    (mbedtls_ssl_get_peer_cert : σ → Option mbedtls_x509_crt)
    (mbedtls_sha1 : List Nat → List Nat)
    (hlen : ∀ bs, (mbedtls_sha1 bs).length = 20)
    (ssl ssl2 : σ) (hash hash2 : List Nat) :
    ((SSLi_getSHA1Hash mbedtls_ssl_get_peer_cert mbedtls_sha1 ssl hash).1 = false ↔
      mbedtls_ssl_get_peer_cert ssl = none) ∧
    (mbedtls_ssl_get_peer_cert ssl = none →
      (SSLi_getSHA1Hash mbedtls_ssl_get_peer_cert mbedtls_sha1 ssl hash).2 = hash) ∧
    (∀ cert, mbedtls_ssl_get_peer_cert ssl = some cert →
      (SSLi_getSHA1Hash mbedtls_ssl_get_peer_cert mbedtls_sha1 ssl hash).1 = true ∧
      (SSLi_getSHA1Hash mbedtls_ssl_get_peer_cert mbedtls_sha1 ssl hash).2.take 20 =
        mbedtls_sha1 cert.raw ∧
      (SSLi_getSHA1Hash mbedtls_ssl_get_peer_cert mbedtls_sha1 ssl hash).2.drop 20 =
        hash.drop 20) ∧
    (∀ c1 c2, mbedtls_ssl_get_peer_cert ssl = some c1 →
      mbedtls_ssl_get_peer_cert ssl2 = some c2 → c1.raw = c2.raw →
      (SSLi_getSHA1Hash mbedtls_ssl_get_peer_cert mbedtls_sha1 ssl hash).2.take 20 =
        (SSLi_getSHA1Hash mbedtls_ssl_get_peer_cert mbedtls_sha1 ssl2 hash2).2.take 20 ∧
      ((SSLi_getSHA1Hash mbedtls_ssl_get_peer_cert mbedtls_sha1 ssl hash).2.take 20).length
        = 20) := by
  have htake : ∀ (bs rest : List Nat), (mbedtls_sha1 bs ++ rest).take 20 = mbedtls_sha1 bs := by
    intro bs rest
    rw [List.take_append_of_le_length (le_of_eq (hlen bs).symm)]
    exact List.take_of_length_le (le_of_eq (hlen bs))
  refine ⟨?_, ?_, ?_, ?_⟩
  · unfold SSLi_getSHA1Hash
    cases mbedtls_ssl_get_peer_cert ssl <;> simp
  · intro h
    simp [SSLi_getSHA1Hash, h]
  · intro cert h
    simp only [SSLi_getSHA1Hash, h]
    refine ⟨trivial, htake _ _, ?_⟩
    rw [List.drop_append_of_le_length (le_of_eq (hlen cert.raw).symm)]
    rw [List.drop_of_length_le (le_of_eq (hlen cert.raw)), hlen]
    rfl
  · intro c1 c2 h1 h2 hraw
    simp only [SSLi_getSHA1Hash, h1, h2]
    rw [htake, htake, hraw]
    exact ⟨rfl, hlen _⟩

/-- Witness of C10: two connections (contexts 1 and 2) whose peers presented
the same certificate bytes, over different chains, and a context 0 without a
peer certificate. -/
theorem getSHA1Hash_fingerprint_witness :
    ((SSLi_getSHA1Hash
        (fun s : Nat => if s = 0 then none else some ⟨[48, 130, 1], List.replicate s [7]⟩)
        sampleDigest 1 (List.replicate 20 0)).2.take 20 =
      (SSLi_getSHA1Hash
        (fun s : Nat => if s = 0 then none else some ⟨[48, 130, 1], List.replicate s [7]⟩)
        sampleDigest 2 (List.replicate 20 255)).2.take 20 ∧
     ((SSLi_getSHA1Hash
        (fun s : Nat => if s = 0 then none else some ⟨[48, 130, 1], List.replicate s [7]⟩)
        sampleDigest 1 (List.replicate 20 0)).2.take 20).length = 20) :=
  (getSHA1Hash_fingerprint
    (fun s : Nat => if s = 0 then none else some ⟨[48, 130, 1], List.replicate s [7]⟩)
    sampleDigest (fun bs => by simp [sampleDigest]) 1 2 (List.replicate 20 0)
    (List.replicate 20 255)).2.2.2
    ⟨[48, 130, 1], [[7]]⟩ ⟨[48, 130, 1], [[7], [7]]⟩ rfl rfl rfl

/-! ## Teardown -/

theorem newconnection_ok (eng : FactoryEngine) (g : Globals) (h : Heap)
    (hnext : 1 ≤ h.next) (havail : 3 ≤ h.avail)
    (hdef : eng.mbedtls_ssl_config_defaults = 0)
    (hown : eng.mbedtls_ssl_conf_own_cert g.certificate g.key = 0)
    (hdh : eng.mbedtls_ssl_conf_dh_param = 0)
    (hsetup : eng.mbedtls_ssl_setup = 0) :
    SSLi_newconnection eng g h = Startup.ok (h.next,
      { next := h.next + 3, avail := h.avail - 3,
        live := (h.next + 2) :: (h.next + 1) :: h.next :: h.live,
        conf_of := (h.next, h.next + 2) :: h.conf_of.filter (fun e => e.1 != h.next),
        released := h.released, events := h.events }) := by
  have ha0 : h.avail ≠ 0 := by omega
  have ha1 : h.avail - 1 ≠ 0 := by omega
  have ha2 : h.avail - 1 - 1 ≠ 0 := by omega
  have hn0 : h.next ≠ 0 := by omega
  have e3 : h.avail - 1 - 1 - 1 = h.avail - 3 := by omega
  simp [SSLi_newconnection, calloc, ha0, ha1, ha2, hn0, hdef, hown, hdh, hsetup,
    Heap.setConf, e3, Nat.add_assoc]

/-- C9 (what the code does): for a connection produced by `SSLi_newconnection`
on a heap with room for its three blocks, `SSLi_free` leaves the session block
(the second of the three) live, and its history is: read of `ssl->conf`,
release of the configuration contents, release of the context contents, a
second read of `ssl->conf` from the released context, `free` of the value
read, `free` of the context. No event releases the session. -/
theorem SSLi_free_leaves_session_live (eng : FactoryEngine) (g : Globals) (h : Heap)
    (hnext : 1 ≤ h.next) (hfresh : ∀ p, p ∈ h.live → p < h.next) (havail : 3 ≤ h.avail)
    (hdef : eng.mbedtls_ssl_config_defaults = 0)
    (hown : eng.mbedtls_ssl_conf_own_cert g.certificate g.key = 0)
    (hdh : eng.mbedtls_ssl_conf_dh_param = 0)
    (hsetup : eng.mbedtls_ssl_setup = 0) :
    ∃ h1, SSLi_newconnection eng g h = Startup.ok (h.next, h1) ∧
      h1.live = (h.next + 2) :: (h.next + 1) :: h.next :: h.live ∧
      (h.next + 1) ∉ h.live ∧
      (h.next + 1) ∈ (SSLi_free eng h.next h1).live ∧
      (SSLi_free eng h.next h1).events = h.events ++
        [HeapEvent.read_conf h.next (h.next + 2),
         HeapEvent.config_free (h.next + 2),
         HeapEvent.ssl_free h.next,
         HeapEvent.read_conf h.next (if eng.mbedtls_ssl_free_wipes then 0 else h.next + 2),
         HeapEvent.free (if eng.mbedtls_ssl_free_wipes then 0 else h.next + 2),
         HeapEvent.free h.next] := by
  refine ⟨_, newconnection_ok eng g h hnext havail hdef hown hdh hsetup, rfl, ?_, ?_, ?_⟩
  · intro hmem
    have := hfresh _ hmem
    omega
  · have hn0 : h.next ≠ 0 := by omega
    cases hw : eng.mbedtls_ssl_free_wipes <;>
      simp [SSLi_free, readConf, mbedtls_ssl_config_free, mbedtls_ssl_free, free, Heap.conf,
        Heap.setConf, hw, hn0, List.lookup, List.erase_cons]
  · have hn0 : h.next ≠ 0 := by omega
    cases hw : eng.mbedtls_ssl_free_wipes <;>
      simp [SSLi_free, readConf, mbedtls_ssl_config_free, mbedtls_ssl_free, free, Heap.conf,
        Heap.setConf, hw, hn0, List.lookup]

/-- Witness of C9 on the empty heap: the blocks are 1 (context), 2 (session)
and 3 (configuration); after `SSLi_free` block 2 is still live. -/
theorem SSLi_free_leaves_session_live_witness :
    ∃ h1, SSLi_newconnection (okEngine true) Globals.start (Heap.empty 3) =
        Startup.ok ((Heap.empty 3).next, h1) ∧
      h1.live = ((Heap.empty 3).next + 2) :: ((Heap.empty 3).next + 1) ::
        (Heap.empty 3).next :: (Heap.empty 3).live ∧
      ((Heap.empty 3).next + 1) ∉ (Heap.empty 3).live ∧
      ((Heap.empty 3).next + 1) ∈ (SSLi_free (okEngine true) (Heap.empty 3).next h1).live ∧
      (SSLi_free (okEngine true) (Heap.empty 3).next h1).events = (Heap.empty 3).events ++
        [HeapEvent.read_conf (Heap.empty 3).next ((Heap.empty 3).next + 2),
         HeapEvent.config_free ((Heap.empty 3).next + 2),
         HeapEvent.ssl_free (Heap.empty 3).next,
         HeapEvent.read_conf (Heap.empty 3).next
           (if (okEngine true).mbedtls_ssl_free_wipes then 0 else (Heap.empty 3).next + 2),
         HeapEvent.free
           (if (okEngine true).mbedtls_ssl_free_wipes then 0 else (Heap.empty 3).next + 2),
         HeapEvent.free (Heap.empty 3).next] :=
  SSLi_free_leaves_session_live (okEngine true) Globals.start (Heap.empty 3)
    (by decide) (by intro p hp; cases hp) (by decide) rfl rfl rfl rfl

/-! ## Credential store -/

theorem SSLi_init_of_initCert_fatal (c : EngineCodes) (env : Env) (g : Globals) (m : FatalMsg)
    (h : initCert env g = Startup.fatal m) : SSLi_init c env g = Startup.fatal m := by
  simp [SSLi_init, h]

/-- C6 (as stated, refuted): with the fallback compiled in and no certificate
path configured, an engine that does not decode the built-in test certificate
makes `initCert` fatal: no chain is loaded and `SSLi_init` does not complete. -/
theorem initCert_builtin_undecodable_is_fatal :
    ({ sampleEnv with USE_MBEDTLS_TESTCERT := true, CERTIFICATE := none,
                      test_srv_crt_rc := -8576 } : Env).CERTIFICATE = none ∧
    initCert { sampleEnv with USE_MBEDTLS_TESTCERT := true, CERTIFICATE := none,
                              test_srv_crt_rc := -8576 } Globals.start
      = Startup.fatal FatalMsg.builtinCertificate ∧
    SSLi_init mbedtlsCodes { sampleEnv with USE_MBEDTLS_TESTCERT := true, CERTIFICATE := none,
                                            test_srv_crt_rc := -8576 } Globals.start
      = Startup.fatal FatalMsg.builtinCertificate ∧
    ¬ ∃ g1, initCert { sampleEnv with USE_MBEDTLS_TESTCERT := true, CERTIFICATE := none,
                                      test_srv_crt_rc := -8576 } Globals.start
      = Startup.ok g1 := by
  refine ⟨rfl, by decide, by decide, ?_⟩
  rintro ⟨g1, hg⟩
  have hf : initCert { sampleEnv with USE_MBEDTLS_TESTCERT := true, CERTIFICATE := none,
                                      test_srv_crt_rc := -8576 } Globals.start
      = Startup.fatal FatalMsg.builtinCertificate := by decide
  rw [hf] at hg
  cases hg

/-- C6 (amended): `initCert` uses the chain of the configured file when it
decodes, leaving the built-in flag and the log as they were. When the path is
missing or the file does not decode: with the fallback compiled in, a warning
is logged, the flag is set and the built-in chain is loaded if the engine
decodes it, the outcome being fatal if it does not; without the fallback the
outcome is fatal. A fatal outcome of `initCert` is the outcome of `SSLi_init`. -/
theorem initCert_fallback_or_fatal (c : EngineCodes) (env : Env) (g : Globals) :
    (∀ crtfile, env.CERTIFICATE = some crtfile →
      env.mbedtls_x509_crt_parse_file crtfile = 0 →
      initCert env g = Startup.ok
        { g with certificate := some { origin := Origin.file crtfile,
                                       pk := env.crt_pk crtfile } }) ∧
    (env.CERTIFICATE = none → env.USE_MBEDTLS_TESTCERT = true →
      (env.test_srv_crt_rc = 0 → initCert env g = Startup.ok
        { g with certificate := some { origin := Origin.builtin, pk := PkFamily.rsa },
                 builtInTestCertificate := true,
                 log := g.log ++ [LogLine.warnNoCertificateFallback] }) ∧
      (env.test_srv_crt_rc ≠ 0 →
        initCert env g = Startup.fatal FatalMsg.builtinCertificate)) ∧
    (∀ crtfile, env.CERTIFICATE = some crtfile →
      env.mbedtls_x509_crt_parse_file crtfile ≠ 0 → env.USE_MBEDTLS_TESTCERT = true →
      (env.test_srv_crt_rc = 0 → initCert env g = Startup.ok
        { g with certificate := some { origin := Origin.builtin, pk := PkFamily.rsa },
                 builtInTestCertificate := true,
                 log := g.log ++ [LogLine.warnUnreadableCertificateFallback crtfile] }) ∧
      (env.test_srv_crt_rc ≠ 0 →
        initCert env g = Startup.fatal FatalMsg.builtinCertificate)) ∧
    (env.CERTIFICATE = none → env.USE_MBEDTLS_TESTCERT = false →
      initCert env g = Startup.fatal FatalMsg.noCertificateFile) ∧
    (∀ crtfile, env.CERTIFICATE = some crtfile →
      env.mbedtls_x509_crt_parse_file crtfile ≠ 0 → env.USE_MBEDTLS_TESTCERT = false →
      initCert env g = Startup.fatal (FatalMsg.readCertificateFile crtfile)) ∧
    (∀ m, initCert env g = Startup.fatal m → SSLi_init c env g = Startup.fatal m) := by
  refine ⟨?_, ?_, ?_, ?_, ?_, ?_⟩
  · intro crtfile hc hrc
    simp [initCert, hc, hrc]
  · intro hc ht
    constructor
    · intro hrc
      simp [initCert, initTestCert, Globals.logLine, hc, ht, hrc]
    · intro hrc
      simp [initCert, initTestCert, hc, ht, hrc]
  · intro crtfile hc hrc ht
    constructor
    · intro htest
      simp [initCert, initTestCert, Globals.logLine, hc, ht, hrc, htest]
    · intro htest
      simp [initCert, initTestCert, hc, ht, hrc, htest]
  · intro hc ht
    simp [initCert, hc, ht]
  · intro crtfile hc hrc ht
    simp [initCert, hc, ht, hrc]
  · intro m hm
    exact SSLi_init_of_initCert_fatal c env g m hm

/-- Witness of the amended C6: no path configured, fallback compiled in, the
built-in chain decodes. -/
theorem initCert_fallback_or_fatal_witness :
    initCert { sampleEnv with USE_MBEDTLS_TESTCERT := true, CERTIFICATE := none } Globals.start
      = Startup.ok
        { Globals.start with
            certificate := some { origin := Origin.builtin, pk := PkFamily.rsa },
            builtInTestCertificate := true,
            log := Globals.start.log ++ [LogLine.warnNoCertificateFallback] } :=
  ((initCert_fallback_or_fatal mbedtlsCodes
      { sampleEnv with USE_MBEDTLS_TESTCERT := true, CERTIFICATE := none }
      Globals.start).2.1 rfl rfl).1 rfl

theorem x509parse_keyfile_zero_iff (c : EngineCodes) (env : Env) (path : String)
    (hT : c.MBEDTLS_ERR_PK_TYPE_MISMATCH ≠ 0) :
    (x509parse_keyfile c env path).1 = 0 ↔
      (env.mbedtls_pk_parse_keyfile path = 0 ∧ env.key_family path = PkFamily.rsa) := by
  simp only [x509parse_keyfile, mbedtls_pk_can_do, beq_iff_eq]
  split_ifs with h
  · constructor
    · intro h0; exact absurd h0 hT
    · rintro ⟨_, h2⟩; exact absurd h2 h.2
  · constructor
    · intro h0
      refine ⟨h0, ?_⟩
      by_contra hne
      exact h ⟨h0, hne⟩
    · rintro ⟨h1, _⟩; exact h1

theorem x509parse_keyfile_snd (c : EngineCodes) (env : Env) (path : String) :
    (x509parse_keyfile c env path).2 =
      { origin := Origin.file path, family := env.key_family path } := by
  simp only [x509parse_keyfile]
  split_ifs <;> rfl

theorem initKey_ok_iff (c : EngineCodes) (env : Env) (g : Globals) (keyfile : String)
    (hT : c.MBEDTLS_ERR_PK_TYPE_MISMATCH ≠ 0) (hk : env.KEY = some keyfile) :
    (env.mbedtls_pk_parse_keyfile keyfile = 0 ∧ env.key_family keyfile = PkFamily.rsa →
      initKey c env g = Startup.ok
        { g with key := some { origin := Origin.file keyfile,
                               family := env.key_family keyfile } }) ∧
    (¬ (env.mbedtls_pk_parse_keyfile keyfile = 0 ∧ env.key_family keyfile = PkFamily.rsa) →
      initKey c env g = Startup.fatal (FatalMsg.readKeyFile keyfile)) := by
  constructor
  · intro h
    have h0 := (x509parse_keyfile_zero_iff c env keyfile hT).mpr h
    simp [initKey, hk, h0, x509parse_keyfile_snd]
  · intro h
    have h0 : (x509parse_keyfile c env keyfile).1 ≠ 0 :=
      fun h0 => h ((x509parse_keyfile_zero_iff c env keyfile hT).mp h0)
    simp [initKey, hk, h0]

/-- C7 (as stated, refuted): the certificate load falls back to the built-in
chain, and an engine that does not decode the built-in test key makes
`SSLi_init` fatal: the built-in key is not loaded. -/
theorem init_builtin_key_undecodable_is_fatal :
    initCert { sampleEnv with USE_MBEDTLS_TESTCERT := true, CERTIFICATE := none,
                              test_srv_key_rc := -15616 } Globals.start
      = Startup.ok
        { Globals.start with
            certificate := some { origin := Origin.builtin, pk := PkFamily.rsa },
            builtInTestCertificate := true,
            log := [LogLine.warnNoCertificateFallback] } ∧
    SSLi_init mbedtlsCodes { sampleEnv with USE_MBEDTLS_TESTCERT := true, CERTIFICATE := none,
                                            test_srv_key_rc := -15616 } Globals.start
      = Startup.fatal FatalMsg.builtinKey := by
  constructor <;> decide

/-- C7 (amended): `x509parse_keyfile` returns 0 exactly when the file decodes
and the key can do RSA, and the type-mismatch code when it decodes and cannot.
In `SSLi_init`, after a fallback to the built-in chain the key step decodes the
built-in key, its outcome does not depend on the configured key path or on any
key file, and it is fatal exactly when the engine does not decode the built-in
key; otherwise the key comes from the configured file and the step is fatal
exactly when the path is missing, the file does not decode, or the key cannot
do RSA. After a successful `SSLi_init` the key is the built-in one exactly when
the certificate is. -/
theorem initKey_follows_certificate (c : EngineCodes) (env : Env) (g : Globals)
    (hT : c.MBEDTLS_ERR_PK_TYPE_MISMATCH ≠ 0) :
    (∀ path,
      ((x509parse_keyfile c env path).1 = 0 ↔
        (env.mbedtls_pk_parse_keyfile path = 0 ∧
         mbedtls_pk_can_do (x509parse_keyfile c env path).2 PkFamily.rsa = true)) ∧
      (env.mbedtls_pk_parse_keyfile path = 0 →
        mbedtls_pk_can_do (x509parse_keyfile c env path).2 PkFamily.rsa = false →
        (x509parse_keyfile c env path).1 = c.MBEDTLS_ERR_PK_TYPE_MISMATCH)) ∧
    (env.USE_MBEDTLS_TESTCERT = true → g.builtInTestCertificate = true →
      (env.test_srv_key_rc = 0 → initKeyStep c env g = Startup.ok
        { g with key := some { origin := Origin.builtin, family := PkFamily.rsa },
                 log := g.log ++ [LogLine.warnUsingBuiltin] ++ [LogLine.warnNotSecure] }) ∧
      (env.test_srv_key_rc ≠ 0 → initKeyStep c env g = Startup.fatal FatalMsg.builtinKey) ∧
      (∀ (k : Option String) (parse : String → Int) (fam : String → PkFamily),
        initKeyStep c { env with KEY := k, mbedtls_pk_parse_keyfile := parse,
                                 key_family := fam } g = initKeyStep c env g)) ∧
    ((env.USE_MBEDTLS_TESTCERT = false ∨ g.builtInTestCertificate = false) →
      (env.KEY = none → initKeyStep c env g = Startup.fatal FatalMsg.noKeyFile) ∧
      (∀ keyfile, env.KEY = some keyfile →
        (env.mbedtls_pk_parse_keyfile keyfile = 0 ∧ env.key_family keyfile = PkFamily.rsa →
          initKeyStep c env g = Startup.ok
            { g with key := some { origin := Origin.file keyfile,
                                   family := env.key_family keyfile } }) ∧
        (¬ (env.mbedtls_pk_parse_keyfile keyfile = 0 ∧
            env.key_family keyfile = PkFamily.rsa) →
          initKeyStep c env g = Startup.fatal (FatalMsg.readKeyFile keyfile)))) ∧
    (∀ g2, SSLi_init c env Globals.start = Startup.ok g2 →
      ∃ crt key, g2.certificate = some crt ∧ g2.key = some key ∧
        (key.origin = Origin.builtin ↔ crt.origin = Origin.builtin)) := by
  refine ⟨?_, ?_, ?_, ?_⟩
  · intro path
    constructor
    · rw [x509parse_keyfile_zero_iff c env path hT, x509parse_keyfile_snd]
      simp [mbedtls_pk_can_do]
    · intro h1 h2
      rw [x509parse_keyfile_snd] at h2
      simp only [mbedtls_pk_can_do, beq_eq_false_iff_ne, ne_eq] at h2
      simp [x509parse_keyfile, mbedtls_pk_can_do, h1, h2]
  · intro ht hb
    refine ⟨?_, ?_, ?_⟩
    · intro hrc
      simp [initKeyStep, initTestKey, Globals.logLine, ht, hb, hrc]
    · intro hrc
      simp [initKeyStep, initTestKey, ht, hb, hrc]
    · intro k parse fam
      simp [initKeyStep, initTestKey, ht, hb]
  · intro hsel
    have hstep : initKeyStep c env g = initKey c env g := by
      rcases hsel with h | h <;> simp [initKeyStep, h]
    rw [hstep]
    constructor
    · intro hk
      simp [initKey, hk]
    · intro keyfile hk
      exact initKey_ok_iff c env g keyfile hT hk
  · intro g2 hg2
    simp only [SSLi_init] at hg2
    cases hcert : env.CERTIFICATE with
    | none =>
      cases ht : env.USE_MBEDTLS_TESTCERT with
      | false => simp [initCert, hcert, ht] at hg2
      | true =>
        by_cases hrc : env.test_srv_crt_rc = 0
        · by_cases hkrc : env.test_srv_key_rc = 0
          · simp only [initCert, initTestCert, initKeyStep, initTestKey, initRng,
              Globals.logLine, Globals.start, hcert, ht, hrc, hkrc] at hg2
            split_ifs at hg2 <;> first
              | (cases hg2; exact ⟨_, _, rfl, rfl, by simp⟩)
              | cases hg2
          · simp [initCert, initTestCert, initKeyStep, initTestKey, Globals.logLine,
              Globals.start, hcert, ht, hrc, hkrc] at hg2
        · simp [initCert, initTestCert, hcert, ht, hrc] at hg2
    | some crtfile =>
      by_cases hrc : env.mbedtls_x509_crt_parse_file crtfile = 0
      · have hstep : ∀ g1 : Globals, g1.builtInTestCertificate = false →
            initKeyStep c env g1 = initKey c env g1 := by
          intro g1 h1
          simp [initKeyStep, h1]
        simp only [initCert, hcert, hrc] at hg2
        simp only [ne_eq, not_true_eq_false, ite_false] at hg2
        rw [hstep _ rfl] at hg2
        cases hkey : env.KEY with
        | none => simp [initKey, hkey] at hg2
        | some keyfile =>
          by_cases hgood : env.mbedtls_pk_parse_keyfile keyfile = 0 ∧
              env.key_family keyfile = PkFamily.rsa
          · rw [(initKey_ok_iff c env _ keyfile hT hkey).1 hgood] at hg2
            simp only [initRng, Globals.logLine, Globals.start] at hg2
            split_ifs at hg2 <;> cases hg2 <;> exact ⟨_, _, rfl, rfl, by simp⟩
          · rw [(initKey_ok_iff c env _ keyfile hT hkey).2 hgood] at hg2
            cases hg2
      · cases ht : env.USE_MBEDTLS_TESTCERT with
        | false => simp [initCert, hcert, ht, hrc] at hg2
        | true =>
          by_cases htrc : env.test_srv_crt_rc = 0
          · by_cases hkrc : env.test_srv_key_rc = 0
            · simp only [initCert, initTestCert, initKeyStep, initTestKey, initRng,
                Globals.logLine, Globals.start, hcert, ht, hrc, htrc, hkrc] at hg2
              split_ifs at hg2 <;> first
                | (cases hg2; exact ⟨_, _, rfl, rfl, by simp⟩)
                | cases hg2
            · simp [initCert, initTestCert, initKeyStep, initTestKey, Globals.logLine,
                Globals.start, hcert, ht, hrc, htrc, hkrc] at hg2
          · simp [initCert, initTestCert, hcert, ht, hrc, htrc] at hg2

/-- Witness of the amended C7: after a fallback to the built-in chain the key
step loads the built-in key, with the two warnings. -/
theorem initKey_follows_certificate_witness :
    initKeyStep mbedtlsCodes { sampleEnv with USE_MBEDTLS_TESTCERT := true, CERTIFICATE := none }
      { Globals.start with
          certificate := some { origin := Origin.builtin, pk := PkFamily.rsa },
          builtInTestCertificate := true }
      = Startup.ok
        { certificate := some { origin := Origin.builtin, pk := PkFamily.rsa },
          key := some { origin := Origin.builtin, family := PkFamily.rsa },
          builtInTestCertificate := true,
          urandom_fd := 0,
          log := [] ++ [LogLine.warnUsingBuiltin] ++ [LogLine.warnNotSecure] } :=
  ((initKey_follows_certificate mbedtlsCodes
      { sampleEnv with USE_MBEDTLS_TESTCERT := true, CERTIFICATE := none }
      { Globals.start with
          certificate := some { origin := Origin.builtin, pk := PkFamily.rsa },
          builtInTestCertificate := true }
      (by decide)).2.1 rfl rfl).1 rfl

theorem initRng_keeps_credentials (env : Env) (g : Globals)
    (h : env.USE_MBEDTLS_HAVEGE = true ∨ 0 ≤ env.open_urandom) :
    ∃ g1, initRng env g = Startup.ok g1 ∧ g1.certificate = g.certificate ∧ g1.key = g.key := by
  cases hhav : env.USE_MBEDTLS_HAVEGE
  · have hfd : ¬ env.open_urandom < 0 := by
      rcases h with h | h
      · rw [hhav] at h; cases h
      · exact not_lt.mpr h
    refine ⟨{ g with urandom_fd := env.open_urandom }.logLine LogLine.infoLibraryReady,
      ?_, rfl, rfl⟩
    simp [initRng, hhav, hfd]
  · refine ⟨g.logLine LogLine.infoLibraryReady, ?_, rfl, rfl⟩
    simp [initRng, hhav]

theorem SSLi_init_files (c : EngineCodes) (env : Env) (crtfile keyfile : String)
    (hT : c.MBEDTLS_ERR_PK_TYPE_MISMATCH ≠ 0)
    (hc : env.CERTIFICATE = some crtfile) (hk : env.KEY = some keyfile)
    (hcp : env.mbedtls_x509_crt_parse_file crtfile = 0) :
    SSLi_init c env Globals.start =
      if env.mbedtls_pk_parse_keyfile keyfile = 0 ∧ env.key_family keyfile = PkFamily.rsa then
        initRng env
          { Globals.start with
              certificate := some { origin := Origin.file crtfile, pk := env.crt_pk crtfile },
              key := some { origin := Origin.file keyfile, family := env.key_family keyfile } }
      else
        Startup.fatal (FatalMsg.readKeyFile keyfile) := by
  have hstep : ∀ g1 : Globals, g1.builtInTestCertificate = false →
      initKeyStep c env g1 = initKey c env g1 := by
    intro g1 h1
    simp [initKeyStep, h1]
  have hcert : initCert env Globals.start = Startup.ok
      { Globals.start with
          certificate := some { origin := Origin.file crtfile, pk := env.crt_pk crtfile } } := by
    simp [initCert, hc, hcp]
  simp only [SSLi_init, hcert]
  rw [hstep _ rfl]
  split_ifs with hgood
  · rw [(initKey_ok_iff c env _ keyfile hT hk).1 hgood]
  · rw [(initKey_ok_iff c env _ keyfile hT hk).2 hgood]

/-- C8 (as stated, refuted): a certificate file with an EC public key and an
RSA key file, both decoding: `SSLi_init` completes with this incompatible pair
in the store, and `SSLi_newconnection` returns a connection. -/
theorem init_accepts_incompatible_pair :
    compatiblePair { origin := Origin.file "server.crt", pk := PkFamily.ec }
      { origin := Origin.file "server.key", family := PkFamily.rsa } = false ∧
    SSLi_init mbedtlsCodes { sampleEnv with crt_pk := fun _ => PkFamily.ec } Globals.start
      = Startup.ok
        { certificate := some { origin := Origin.file "server.crt", pk := PkFamily.ec },
          key := some { origin := Origin.file "server.key", family := PkFamily.rsa },
          builtInTestCertificate := false,
          urandom_fd := 3,
          log := [LogLine.infoLibraryReady] } ∧
    SSLi_newconnection (okEngine true)
        { certificate := some { origin := Origin.file "server.crt", pk := PkFamily.ec },
          key := some { origin := Origin.file "server.key", family := PkFamily.rsa },
          builtInTestCertificate := false,
          urandom_fd := 3,
          log := [LogLine.infoLibraryReady] } (Heap.empty 3)
      = Startup.ok (1,
        { next := 4, avail := 0, live := [3, 2, 1], conf_of := [(1, 3)], released := [],
          events := [] }) := by
  refine ⟨by decide, by decide, by decide⟩

/-- C8 (amended): with a certificate file and a key file that both decode,
`SSLi_init` is fatal for the key exactly when the key cannot do RSA, and
otherwise completes (given the random device) with the chain and the key of
the two files, whatever the algorithm of the certificate: the two families are
never compared. `SSLi_newconnection` is fatal exactly when an allocation fails
or an engine configuration call returns non-zero. -/
theorem init_checks_key_family_only (c : EngineCodes) (env : Env) (eng : FactoryEngine)
    (h : Heap) (crtfile keyfile : String)
    (hT : c.MBEDTLS_ERR_PK_TYPE_MISMATCH ≠ 0)
    (hc : env.CERTIFICATE = some crtfile) (hk : env.KEY = some keyfile)
    (hcp : env.mbedtls_x509_crt_parse_file crtfile = 0)
    (hkp : env.mbedtls_pk_parse_keyfile keyfile = 0)
    (hnext : 1 ≤ h.next) :
    (env.key_family keyfile ≠ PkFamily.rsa →
      SSLi_init c env Globals.start = Startup.fatal (FatalMsg.readKeyFile keyfile)) ∧
    (env.key_family keyfile = PkFamily.rsa → env.USE_MBEDTLS_HAVEGE = false →
      env.open_urandom < 0 →
      SSLi_init c env Globals.start = Startup.fatal FatalMsg.openUrandom) ∧
    (env.key_family keyfile = PkFamily.rsa →
      (env.USE_MBEDTLS_HAVEGE = true ∨ 0 ≤ env.open_urandom) →
      ∃ g, SSLi_init c env Globals.start = Startup.ok g ∧
        g.certificate = some { origin := Origin.file crtfile, pk := env.crt_pk crtfile } ∧
        g.key = some { origin := Origin.file keyfile, family := PkFamily.rsa }) ∧
    (∀ g, (∃ m, SSLi_newconnection eng g h = Startup.fatal m) ↔
      (h.avail < 3 ∨ eng.mbedtls_ssl_config_defaults ≠ 0 ∨
       eng.mbedtls_ssl_conf_own_cert g.certificate g.key ≠ 0 ∨
       eng.mbedtls_ssl_conf_dh_param ≠ 0 ∨ eng.mbedtls_ssl_setup ≠ 0)) := by
  have hinit := SSLi_init_files c env crtfile keyfile hT hc hk hcp
  refine ⟨?_, ?_, ?_, ?_⟩
  · intro hfam
    rw [hinit, if_neg (fun hg => hfam hg.2)]
  · intro hfam hhav hfd
    rw [hinit, if_pos ⟨hkp, hfam⟩]
    simp [initRng, hhav, hfd]
  · intro hfam hrng
    rw [hinit, if_pos ⟨hkp, hfam⟩]
    obtain ⟨g, hg, hgc, hgk⟩ := initRng_keeps_credentials env _ hrng
    exact ⟨g, hg, hgc, by rw [hgk, hfam]⟩
  · intro g
    by_cases hav : h.avail < 3
    · simp only [hav, true_or, iff_true]
      have hnull : (calloc h).1 = 0 ∨ (calloc (calloc h).2).1 = 0 ∨
          (calloc (calloc (calloc h).2).2).1 = 0 := by
        by_cases h0 : h.avail = 0
        · left; simp [calloc, h0]
        · by_cases h1 : h.avail = 1
          · right; left; simp [calloc, h1]
          · right; right
            have h2 : h.avail - 1 - 1 = 0 := by omega
            have h1p : h.avail - 1 ≠ 0 := by omega
            simp [calloc, h0, h1p, h2]
      exact ⟨FatalMsg.outOfMemory, by simp only [SSLi_newconnection]; rw [if_pos hnull]⟩
    · have ha0 : h.avail ≠ 0 := by omega
      have ha1 : h.avail - 1 ≠ 0 := by omega
      have ha2 : h.avail - 1 - 1 ≠ 0 := by omega
      have hn0 : h.next ≠ 0 := by omega
      simp only [hav, false_or]
      simp only [SSLi_newconnection, calloc, ha0, ha1, ha2, hn0, if_false, false_or,
        Nat.add_eq_zero, and_false, one_ne_zero]
      split_ifs with h1 h2 h3 h4
      · simp [h1]
      · simp [h1, h2]
      · simp [h1, h2, h3]
      · simp [h1, h2, h3, h4]
      · simp [h1, h2, h3, h4]

/-- Witness of the amended C8: an EC certificate and an RSA key, both files
decoding, the random device opening: `SSLi_init` completes with that pair. -/
theorem init_checks_key_family_only_witness :
    ∃ g, SSLi_init mbedtlsCodes { sampleEnv with crt_pk := fun _ => PkFamily.ec } Globals.start
        = Startup.ok g ∧
      g.certificate = some { origin := Origin.file "server.crt", pk := PkFamily.ec } ∧
      g.key = some { origin := Origin.file "server.key", family := PkFamily.rsa } :=
  (init_checks_key_family_only mbedtlsCodes { sampleEnv with crt_pk := fun _ => PkFamily.ec }
    (okEngine true) (Heap.empty 3) "server.crt" "server.key"
    (by decide) rfl rfl rfl rfl (by decide)).2.2.1 rfl (Or.inr (by decide))

end Umurmur
